import Mathlib

/-!
Verification development for the sendly-cli client core: the resilient API
client (`src/unnamed/part_019`, the full `ApiClient` with retry, refresh and
rate-limit bookkeeping), the credential resolver (`src/src/lib/config.ts`)
and the webhook relay session (`src/src/commands/logs/tail.ts`,
`WebhooksListen`).  Each definition is a shallow embedding of the
corresponding TypeScript function; effects (fetch outcomes, refresh
outcomes, the local forward endpoint) are supplied as explicit oracles and
observable behaviour is recorded as an action trace.
-/

namespace Sendly

/-! ## JavaScript primitives

JS truthiness on the values that occur in the embedded code: a string is
falsy iff it is empty or absent; a number is falsy iff it is `0` (or absent,
for an `undefined` field). -/

/-- JS truthiness of an optional string (`undefined`/`null`/`""` are falsy). -/
def jsTruthyStr : Option String → Bool
  | none => false
  | some s => !(s == "")

/-- JS truthiness of an optional number (`undefined` and `0` are falsy). -/
def jsTruthyInt : Option Int → Bool
  | none => false
  | some n => !(n == 0)

/-- JS `a || d` for an optional string `a` (falls back on `undefined` and `""`). -/
def jsOrStr (a : Option String) (d : String) : String :=
  if jsTruthyStr a then a.getD d else d

/-- JS `a || d` for an optional number `a` (falls back on `undefined` and `0`). -/
def jsOrInt (a : Option Int) (d : Int) : Int :=
  if jsTruthyInt a then a.getD d else d

/-- JS `parseInt(s, 10)`: skip leading spaces, optional sign, then the longest
run of decimal digits; `none` models `NaN` (no digits found). -/
def jsParseInt (s : String) : Option Int :=
  let l := s.toList.dropWhile (· = ' ')
  let (neg, l) : Bool × List Char :=
    match l with
    | '-' :: rest => (true, rest)
    | '+' :: rest => (false, rest)
    | _ => (false, l)
  let digits := l.takeWhile (·.isDigit)
  if digits.isEmpty then none
  else
    let n : Nat := digits.foldl (fun acc c => acc * 10 + (c.toNat - '0'.toNat)) 0
    some (if neg then -(n : Int) else (n : Int))

/-- JS `s.startsWith(p)` (over code points). -/
def strStartsWith (s p : String) : Bool :=
  s.toList.take p.toList.length == p.toList

/-- JS `s.includes(sub)`: substring membership. -/
def hasSubstr (s sub : String) : Bool :=
  (List.range (s.toList.length + 1)).any
    (fun i => (s.toList.drop i).take sub.toList.length == sub.toList)

/-! ## SHA-256 and HMAC-SHA256

`node:crypto`'s `createHmac("sha256", key).update(msg, "utf8").digest("hex")`
used by `WebhooksListen.verifySignature`, implemented over byte lists
(`List Nat`, each element `< 256`) per FIPS 180-4 / RFC 2104. -/

/-- Truncate to a 32-bit word. -/
def w32 (n : Nat) : Nat := n % 4294967296

/-- Rotate right within 32 bits. -/
def rotr32 (n x : Nat) : Nat := w32 ((x >>> n) ||| (x <<< (32 - n)))

def shaCh (x y z : Nat) : Nat := (x &&& y) ^^^ ((x ^^^ 4294967295) &&& z)

def shaMaj (x y z : Nat) : Nat := (x &&& y) ^^^ (x &&& z) ^^^ (y &&& z)

def bigSigma0 (x : Nat) : Nat := rotr32 2 x ^^^ rotr32 13 x ^^^ rotr32 22 x

def bigSigma1 (x : Nat) : Nat := rotr32 6 x ^^^ rotr32 11 x ^^^ rotr32 25 x

def smallSigma0 (x : Nat) : Nat := rotr32 7 x ^^^ rotr32 18 x ^^^ (x >>> 3)

def smallSigma1 (x : Nat) : Nat := rotr32 17 x ^^^ rotr32 19 x ^^^ (x >>> 10)

/-- SHA-256 round constants. -/
def shaK : List Nat :=
  [1116352408, 1899447441, 3049323471, 3921009573, 961987163,
   1508970993, 2453635748, 2870763221, 3624381080, 310598401,
   607225278, 1426881987, 1925078388, 2162078206, 2614888103,
   3248222580, 3835390401, 4022224774, 264347078, 604807628,
   770255983, 1249150122, 1555081692, 1996064986, 2554220882,
   2821834349, 2952996808, 3210313671, 3336571891, 3584528711,
   113926993, 338241895, 666307205, 773529912, 1294757372,
   1396182291, 1695183700, 1986661051, 2177026350, 2456956037,
   2730485921, 2820302411, 3259730800, 3345764771, 3516065817,
   3600352804, 4094571909, 275423344, 430227734, 506948616,
   659060556, 883997877, 958139571, 1322822218, 1537002063,
   1747873779, 1955562222, 2024104815, 2227730452, 2361852424,
   2428436474, 2756734187, 3204031479, 3329325298]

/-- SHA-256 initial hash value. -/
def shaH0 : List Nat :=
  [1779033703, 3144134277, 1013904242, 2773480762,
   1359893119, 2600822924, 528734635, 1541459225]

/-- Big-endian 64-bit encoding (8 bytes). -/
def be64 (n : Nat) : List Nat :=
  [(n >>> 56) % 256, (n >>> 48) % 256, (n >>> 40) % 256, (n >>> 32) % 256,
   (n >>> 24) % 256, (n >>> 16) % 256, (n >>> 8) % 256, n % 256]

/-- Big-endian 32-bit decoding of the first four bytes. -/
def beWord : List Nat → Nat
  | b0 :: b1 :: b2 :: b3 :: _ => (((b0 * 256 + b1) * 256 + b2) * 256) + b3
  | _ => 0

/-- Big-endian 32-bit encoding (4 bytes). -/
def beBytes (n : Nat) : List Nat :=
  [(n >>> 24) % 256, (n >>> 16) % 256, (n >>> 8) % 256, n % 256]

/-- SHA-256 padding: append `0x80`, zeros to 56 mod 64, then the bit length. -/
def shaPad (msg : List Nat) : List Nat :=
  let padZeros := (119 - msg.length % 64) % 64
  msg ++ [0x80] ++ List.replicate padZeros 0 ++ be64 (8 * msg.length)

/-- Split a byte list into 64-byte blocks (structural recursion on a length
bound, so the kernel can evaluate it). -/
def toBlocksGo : Nat → List Nat → List (List Nat)
  | 0, _ => []
  | _, [] => []
  | fuel + 1, a :: rest =>
      ((a :: rest).take 64) :: toBlocksGo fuel ((a :: rest).drop 64)

/-- Split a byte list into 64-byte blocks. -/
def toBlocks (l : List Nat) : List (List Nat) := toBlocksGo l.length l

/-- One step of the message-schedule extension. -/
def schedStep (w : List Nat) : List Nat :=
  w ++ [w32 (smallSigma1 (w.getD (w.length - 2) 0) + w.getD (w.length - 7) 0 +
             smallSigma0 (w.getD (w.length - 15) 0) + w.getD (w.length - 16) 0)]

/-- The 64-entry message schedule of one block. -/
def mkSchedule (block : List Nat) : List Nat :=
  schedStep^[48] ((List.range 16).map (fun i => beWord (block.drop (4 * i))))

/-- One SHA-256 round over the working variables `[a,b,c,d,e,f,g,h]`. -/
def shaRound (st : List Nat) (wt kt : Nat) : List Nat :=
  match st with
  | [a, b, c, d, e, f, g, h] =>
      let t1 := h + bigSigma1 e + shaCh e f g + kt + wt
      let t2 := bigSigma0 a + shaMaj a b c
      [w32 (t1 + t2), a, b, c, w32 (d + t1), e, f, g]
  | other => other

/-- SHA-256 compression of one 64-byte block into the hash state. -/
def shaCompress (hs block : List Nat) : List Nat :=
  let w := mkSchedule block
  let fin := (List.range 64).foldl (fun st t => shaRound st (w.getD t 0) (shaK.getD t 0)) hs
  List.zipWith (fun x y => w32 (x + y)) hs fin

/-- SHA-256 of a byte list, as a 32-entry byte list. -/
def sha256 (msg : List Nat) : List Nat :=
  ((toBlocks (shaPad msg)).foldl shaCompress shaH0).flatMap beBytes

/-- HMAC-SHA256 over byte lists (RFC 2104, block size 64). -/
def hmacSha256 (key msg : List Nat) : List Nat :=
  let k := if key.length > 64 then sha256 key else key
  let k0 := k ++ List.replicate (64 - k.length) 0
  sha256 ((k0.map (fun b => b ^^^ 0x5c)) ++ sha256 ((k0.map (fun b => b ^^^ 0x36)) ++ msg))

/-- UTF-8 bytes of a string. -/
def strBytes (s : String) : List Nat := s.toUTF8.toList.map (fun b => b.toNat)

/-- Lowercase hex digit. -/
def hexDigit (n : Nat) : Char := "0123456789abcdef".toList.getD n '0'

/-- Lowercase hex encoding of a byte list. -/
def toHex (bytes : List Nat) : String :=
  String.mk (bytes.flatMap (fun b => [hexDigit (b / 16), hexDigit (b % 16)]))

/-- Embedding of `crypto.createHmac("sha256", key).update(msg, "utf8").digest("hex")`. -/
def hmacSha256Hex (key msg : String) : String :=
  toHex (hmacSha256 (strBytes key) (strBytes msg))

/-! ## The credential store (`src/src/lib/config.ts`)

The persistent config slots that the auth functions read, plus the ambient
process environment (`process.env.SENDLY_API_KEY`) and the current clock
(`Date.now()`), which is held fixed for the duration of one resolution. -/

/-- The config-file slots read by the auth functions. -/
structure Store where
  apiKey : Option String
  accessToken : Option String
  refreshToken : Option String
  tokenExpiresAt : Option Int
deriving DecidableEq, Repr

/-- Process environment and clock. -/
structure Env where
  sendlyApiKey : Option String
  now : Int
deriving DecidableEq, Repr

/-- Resolver `getAuthToken` (config.ts:307-326): `SENDLY_API_KEY` env var, then the
stored API key, then the stored access token provided an expiry is stored and
`Date.now() < expiresAt`. -/
def getAuthToken (env : Env) (st : Store) : Option String :=
  if jsTruthyStr env.sendlyApiKey then env.sendlyApiKey
  else if jsTruthyStr st.apiKey then st.apiKey
  else if jsTruthyStr st.accessToken && jsTruthyInt st.tokenExpiresAt &&
          decide (env.now < st.tokenExpiresAt.getD 0) then st.accessToken
  else none

/-- Reader `getStoredAccessToken` (config.ts:328-330): `config.get("accessToken") || undefined`. -/
def getStoredAccessToken (st : Store) : Option String :=
  if jsTruthyStr st.accessToken then st.accessToken else none

/-- Payload of a successful `/api/cli/auth/refresh` response (the fields
`setAuthTokens` consumes; `userId`/`email` are not claim-relevant). -/
structure RefreshData where
  accessToken : String
  refreshToken : String
  expiresIn : Int
deriving DecidableEq, Repr

/-- Writer `setAuthTokens` (config.ts:350-362): stores the refreshed pair and
`tokenExpiresAt := Date.now() + expiresIn * 1000`. -/
def setAuthTokens (env : Env) (st : Store) (d : RefreshData) : Store :=
  { st with accessToken := some d.accessToken,
            refreshToken := some d.refreshToken,
            tokenExpiresAt := some (env.now + d.expiresIn * 1000) }

/-! ## Error taxonomy (`src/unnamed/part_019`, the `ApiError` class family) -/

/-- The typed errors raised by `ApiClient.handleError` and `ensureAuth`; each
constructor is one `ApiError` subclass, carrying its claim-relevant fields. -/
inductive TypedError where
  | authenticationError (message : String)
  | apiKeyRequiredError (message hint : String)
  | rateLimitError (retryAfter : Int) (message : String)
  | insufficientCreditsError (message : String)
  | notFoundError (message : String)
  | validationError (message : String) (hasDetails : Bool)
  | apiError (code message : String) (statusCode : Nat) (hasDetails : Bool)
      (hint : Option String)
deriving DecidableEq, Repr

/-- The `statusCode` each subclass constructor passes to `super`. -/
def TypedError.statusCode : TypedError → Nat
  | .authenticationError _ => 401
  | .apiKeyRequiredError _ _ => 401
  | .rateLimitError _ _ => 429
  | .insufficientCreditsError _ => 402
  | .notFoundError _ => 404
  | .validationError _ _ => 400
  | .apiError _ _ s _ _ => s

/-- An error escaping one attempt: a thrown `ApiError` subclass, or a
transport-level `TypeError` whose message mentions `fetch`. -/
inductive ReqError where
  | typed (e : TypedError)
  | network
deriving DecidableEq, Repr

/-- Predicate `isRetryableError` (part_019:23-33): network `TypeError`s and `ApiError`s
with `statusCode >= 500`. -/
def isRetryableError : ReqError → Bool
  | .network => true
  | .typed e => 500 ≤ e.statusCode

/-- The decoded JSON body of a response (`response.json().catch(() => ({}))`);
only the fields the client inspects, plus `data` abstracting the rest of the
payload so distinct bodies stay distinct. -/
structure Body where
  error : Option String := none
  message : Option String := none
  hasDetails : Bool := false
  retryAfter : Option Int := none
  data : Nat := 0
deriving DecidableEq, Repr

/-- Classifier `ApiClient.handleError` (part_019:308-344). -/
def handleError (statusCode : Nat) (b : Body) : TypedError :=
  let code := jsOrStr b.error "unknown_error"
  let message := jsOrStr b.message ("HTTP " ++ toString statusCode)
  if statusCode = 401 ∨ statusCode = 403 then
    if code == "invalid_api_key" || code == "api_key_required" ||
       hasSubstr message.toLower "api key" then
      .apiKeyRequiredError "API key required for sending messages"
        "Set SENDLY_API_KEY environment variable or create a key with:\n  sendly keys create --type test"
    else .authenticationError message
  else if statusCode = 400 then .validationError message b.hasDetails
  else if statusCode = 402 then .insufficientCreditsError message
  else if statusCode = 404 then .notFoundError message
  else if statusCode = 429 then .rateLimitError (jsOrInt b.retryAfter 60) message
  else
    .apiError code message statusCode b.hasDetails
      (if 500 ≤ statusCode then
        some "This is a server error. Try again later or check https://status.sendly.live"
       else none)

/-! ## Rate-limit tracker -/

/-- The three `X-RateLimit-*` response headers, each possibly absent. -/
structure RateHeaders where
  limit : Option String := none
  remaining : Option String := none
  reset : Option String := none
deriving DecidableEq, Repr

/-- The recorded snapshot; a field is `none` when `parseInt` produced `NaN`. -/
structure RateLimitInfo where
  limit : Option Int
  remaining : Option Int
  reset : Option Int
deriving DecidableEq, Repr

/-- Recorder `ApiClient.updateRateLimitInfo` (part_019:294-306): overwrite the slot
when all three header strings are present and nonempty, storing the
`parseInt` of each; otherwise leave it unchanged. -/
def updateRateLimitInfo (cur : Option RateLimitInfo) (h : RateHeaders) :
    Option RateLimitInfo :=
  if jsTruthyStr h.limit && jsTruthyStr h.remaining && jsTruthyStr h.reset then
    some ⟨jsParseInt (h.limit.getD ""), jsParseInt (h.remaining.getD ""),
          jsParseInt (h.reset.getD "")⟩
  else cur

/-! ## Token refresh and auth resolution (`ApiClient`, part_019)

The refresh endpoint's behaviour is an oracle `Option RefreshData`: `some d`
for a 2xx refresh response with payload `d`, `none` for a non-ok response or
a thrown fetch error (both make `refreshTokens` return `false`). -/

/-- Refresher `ApiClient.refreshTokens` (part_019:170-216): no stored access token means
`false` without issuing the refresh call; otherwise the outcome of the
refresh fetch decides, a success storing the new tokens via `setAuthTokens`.
The returned `Bool × Store × Bool` is (result, store after, whether the
refresh HTTP call was issued). -/
def refreshTokens (env : Env) (st : Store) (oracle : Option RefreshData) :
    Bool × Store × Bool :=
  match getStoredAccessToken st with
  | none => (false, st, false)
  | some _ =>
      match oracle with
      | none => (false, st, true)
      | some d => (true, setAuthTokens env st d, true)

/-- Result of `ensureAuth`: the resolved token (or the thrown
`AuthenticationError`), the store afterwards, and whether a refresh HTTP
call was issued. -/
structure AuthStep where
  result : Except TypedError (String × Store)
  refreshed : Bool

/-- Resolver `ApiClient.ensureAuth` (part_019:135-149): use `getAuthToken` if it yields
a token; otherwise refresh once when the stored access token is
`cli_`-prefixed; otherwise (or if the refresh fails, or the refreshed store
still yields no token) throw `AuthenticationError`. -/
def ensureAuth (env : Env) (st : Store) (oracle : Option RefreshData) : AuthStep :=
  match getAuthToken env st with
  | some t => ⟨.ok (t, st), false⟩
  | none =>
      match getStoredAccessToken st with
      | some stored =>
          if strStartsWith stored "cli_" then
            match refreshTokens env st oracle with
            | (true, st', r) =>
                match getAuthToken env st' with
                | some t => ⟨.ok (t, st'), r⟩
                | none => ⟨.error (.authenticationError "Authentication failed"), r⟩
            | (false, _, r) =>
                ⟨.error (.authenticationError "Authentication failed"), r⟩
          else ⟨.error (.authenticationError "Authentication failed"), false⟩
      | none => ⟨.error (.authenticationError "Authentication failed"), false⟩

/-! ## The request loop (`ApiClient.request`, part_019:218-292)

One CLI call is a pure function of a script of fetch outcomes (indexed by
the number of main-request fetches already issued) and a script of refresh
outcomes (indexed likewise for refresh calls).  Observable behaviour is an
action trace: each issued attempt with the bearer token it carried, each
backoff sleep with its duration, each refresh HTTP call. -/

/-- Outcome of one `fetch` of the main request: an HTTP response (any
status) with its rate-limit headers and decoded JSON body, or a network
`TypeError`. -/
inductive FetchOutcome where
  | response (status : Nat) (headers : RateHeaders) (body : Body)
  | netError
deriving DecidableEq, Repr

/-- Observable actions of one `ApiClient.request` run. -/
inductive Action where
  | attempt (k : Nat) (tok : Option String)
  | sleep (ms : Nat)
  | refreshCall
deriving DecidableEq, Repr

/-- Mutable client/process state threaded through a run. -/
structure ClientState where
  store : Store
  rateLimitInfo : Option RateLimitInfo
  fetchIdx : Nat
  refreshIdx : Nat
deriving DecidableEq, Repr

deriving instance DecidableEq for Except

/-- Everything a run yields: its trace, the final state, and the returned
body or thrown error. -/
structure RunResult where
  trace : List Action
  state : ClientState
  result : Except ReqError Body
deriving DecidableEq, Repr

/-- The `for (let attempt = 0; attempt <= maxRetries; attempt++)` loop of
`ApiClient.request`, entered at a given `attempt` and `didRefresh`.  Each
iteration resolves headers (`getHeaders`/`ensureAuth` — a throw there is
caught by the attempt's `catch` and rethrown as non-retryable), issues the
fetch, records `updateRateLimitInfo` on every response, performs the single
`didRefresh`-guarded refresh-and-replay on a first 401 when `requireAuth`
(the replay decrements `attempt`, not consuming a retry slot), classifies
non-ok responses via `handleError`, and retries retryable errors with
`min(1000*2^attempt, 10000)` ms backoff while attempts remain. -/
def requestLoop (requireAuth : Bool) (maxRetries : Nat) (env : Env)
    (fetches : Nat → FetchOutcome) (refreshes : Nat → Option RefreshData)
    (attempt : Nat) (didRefresh : Bool) (s : ClientState) : RunResult :=
  let astep : AuthStep :=
    if requireAuth then ensureAuth env s.store (refreshes s.refreshIdx)
    else ⟨.ok ("", s.store), false⟩
  let preTrace : List Action := if astep.refreshed then [.refreshCall] else []
  let sA : ClientState → ClientState := fun st =>
    { st with refreshIdx := st.refreshIdx + (if astep.refreshed then 1 else 0) }
  match astep.result with
  | .error e => ⟨preTrace, sA s, .error (.typed e)⟩
  | .ok (tokStr, store') =>
      let tok : Option String := if requireAuth then some tokStr else none
      let s1 := sA { s with store := store' }
      let atrace := preTrace ++ [.attempt attempt tok]
      let s2 := { s1 with fetchIdx := s1.fetchIdx + 1 }
      match fetches s1.fetchIdx with
      | .netError =>
          if hlt : attempt < maxRetries then
            let ms := min (1000 * 2 ^ attempt) 10000
            let r := requestLoop requireAuth maxRetries env fetches refreshes
              (attempt + 1) didRefresh s2
            ⟨atrace ++ [.sleep ms] ++ r.trace, r.state, r.result⟩
          else ⟨atrace, s2, .error .network⟩
      | .response status headers body =>
          let s3 := { s2 with
            rateLimitInfo := updateRateLimitInfo s2.rateLimitInfo headers }
          if h401 : status = 401 ∧ requireAuth = true ∧ didRefresh = false then
            match getStoredAccessToken s3.store with
            | some _ =>
                match refreshes s3.refreshIdx with
                | some d =>
                    let s4 := { s3 with store := setAuthTokens env s3.store d,
                                        refreshIdx := s3.refreshIdx + 1 }
                    let r := requestLoop requireAuth maxRetries env fetches refreshes
                      attempt true s4
                    ⟨atrace ++ [.refreshCall] ++ r.trace, r.state, r.result⟩
                | none =>
                    let s4 := { s3 with refreshIdx := s3.refreshIdx + 1 }
                    ⟨atrace ++ [.refreshCall], s4,
                     .error (.typed (handleError status body))⟩
            | none => ⟨atrace, s3, .error (.typed (handleError status body))⟩
          else if 200 ≤ status ∧ status < 300 then ⟨atrace, s3, .ok body⟩
          else
            let e := handleError status body
            if hr : isRetryableError (.typed e) = true ∧ attempt < maxRetries then
              let ms := min (1000 * 2 ^ attempt) 10000
              let r := requestLoop requireAuth maxRetries env fetches refreshes
                (attempt + 1) didRefresh s3
              ⟨atrace ++ [.sleep ms] ++ r.trace, r.state, r.result⟩
            else ⟨atrace, s3, .error (.typed e)⟩
  termination_by 2 * (maxRetries + 1 - attempt) + (if didRefresh then 0 else 1)
  decreasing_by all_goals (simp_all; try omega)

/-- Fresh client state over a given credential store (the process-wide
`rateLimitInfo` slot starts absent). -/
def initState (st : Store) : ClientState := ⟨st, none, 0, 0⟩

/-- Entry point `ApiClient.request`: the loop entered at `attempt = 0`, `didRefresh = false`. -/
def request (requireAuth : Bool) (maxRetries : Nat) (env : Env)
    (fetches : Nat → FetchOutcome) (refreshes : Nat → Option RefreshData)
    (st : Store) : RunResult :=
  requestLoop requireAuth maxRetries env fetches refreshes 0 false (initState st)

/-- Number of issued attempts in a trace. -/
def countAttempts (tr : List Action) : Nat :=
  tr.countP (fun a => match a with | .attempt _ _ => true | _ => false)

/-- Number of refresh HTTP calls in a trace. -/
def countRefreshCalls (tr : List Action) : Nat :=
  tr.countP (fun a => match a with | .refreshCall => true | _ => false)

/-- The backoff sleeps of a trace, in order. -/
def sleepsOf (tr : List Action) : List Nat :=
  tr.filterMap (fun a => match a with | .sleep ms => some ms | _ => none)

/-! ## The webhook relay (`src/src/commands/logs/tail.ts`, `WebhooksListen`)

The session's observable behaviour per inbound WebSocket message, as an
action trace.  An inbound event object is carried together with
`JSON.stringify(event)` (the wire serialization the runtime produced for
it), which is what both `verifySignature` and the forward body use. -/

/-- An inbound `WebhookEvent` (tail.ts:652-661): the fields the session
reads, plus its `JSON.stringify` serialization. -/
structure WebhookEvent where
  id : String
  type : String
  created : Nat
  dataId : Option String := none
  dataTo : Option String := none
  serialized : String
deriving DecidableEq, Repr

/-- Verifier `WebhooksListen.verifySignature` (tail.ts:842-857): `false` when no
secret is held; otherwise compare the received signature with
`"sha256=" + hex(HMAC-SHA256(secret, "<timestamp>.<JSON.stringify(event)>"))`
by ordinary string equality (`===`). -/
def verifySignature (secret : Option String) (ev : WebhookEvent)
    (timestamp : Nat) (signature : String) : Bool :=
  if jsTruthyStr secret then
    let signedPayload := toString timestamp ++ "." ++ ev.serialized
    let expectedSignature := "sha256=" ++ hmacSha256Hex (secret.getD "") signedPayload
    signature == expectedSignature
  else false

/-- Outcome of the one forward `fetch` POST: a response with its status, or
a thrown transport error with its message. -/
inductive ForwardOutcome where
  | response (status : Nat)
  | netError (msg : String)
deriving DecidableEq, Repr

/-- Operator-observable relay actions. -/
inductive RelayAction where
  | display (created : Nat) (eventType : String) (dataId dataTo : Option String)
  | forwardPost (url payload sigHeader tsHeader typeHeader idHeader : String)
  | forwardOk (url : String) (status : Nat)
  | forwardFailed (status : Nat)
  | forwardError (msg : String)
  | verifyFailed
  | parseError
deriving DecidableEq, Repr

/-- Forwarder `WebhooksListen.forwardEvent` (tail.ts:884-920): one POST of the raw
event JSON with signature/timestamp/type/id headers; a 2xx logs success,
a non-2xx logs `Forward failed`, a thrown fetch error is caught and logged
with its message.  Nothing is retried and nothing escapes. -/
def forwardEvent (url : String) (ev : WebhookEvent) (timestamp : Nat)
    (signature : String) (outcome : ForwardOutcome) : List RelayAction :=
  .forwardPost url ev.serialized signature (toString timestamp) ev.type ev.id ::
  (match outcome with
   | .response status =>
       if 200 ≤ status ∧ status < 300 then [.forwardOk url status]
       else [.forwardFailed status]
   | .netError m => [.forwardError m])

/-- Handler `WebhooksListen.handleEvent` (tail.ts:824-840): display the event, then
forward iff the signature verifies, else report a verification failure. -/
def handleEvent (secret : Option String) (url : String) (ev : WebhookEvent)
    (timestamp : Nat) (signature : String) (outcome : ForwardOutcome) :
    List RelayAction :=
  .display ev.created ev.type ev.dataId ev.dataTo ::
  (if verifySignature secret ev timestamp signature then
    forwardEvent url ev timestamp signature outcome
   else [.verifyFailed])

/-- One parsed (or unparseable) inbound WebSocket message, a
`webhook_event` carrying the local endpoint's outcome for its forward. -/
inductive InboundMsg where
  | connected
  | webhookEvent (ev : WebhookEvent) (timestamp : Nat) (signature : String)
      (fwd : ForwardOutcome)
  | control (msgType : String)
  | unparseable
deriving DecidableEq, Repr

/-- The `ws.on("message")` handler (tail.ts:793-808): `cli_connected`
resolves the connect promise, `webhook_event` is handled, other parsed
messages are ignored, and a parse failure is logged without breaking the
connection. -/
def processMessage (secret : Option String) (url : String) :
    InboundMsg → List RelayAction
  | .connected => []
  | .webhookEvent ev ts sig fwd => handleEvent secret url ev ts sig fwd
  | .control _ => []
  | .unparseable => [.parseError]

/-- The session's read loop over the messages the transport delivers, in
order; no handler outcome terminates it. -/
def processMessages (secret : Option String) (url : String)
    (msgs : List InboundMsg) : List RelayAction :=
  msgs.flatMap (processMessage secret url)

/-- Number of forward POSTs in a relay trace. -/
def countForwardPosts (tr : List RelayAction) : Nat :=
  tr.countP (fun a => match a with | .forwardPost _ _ _ _ _ _ => true | _ => false)

/-- An attempt outcome the engine retries: a transport error, or one of the
claim's retryable statuses. -/
def retryableOutcome : FetchOutcome → Prop
  | .netError => True
  | .response status _ _ => status = 500 ∨ status = 502 ∨ status = 503 ∨ status = 504

/-- The error one attempt outcome raises. -/
def errorOf : FetchOutcome → ReqError
  | .netError => .network
  | .response status _ b => .typed (handleError status b)

/-- The trace of an all-failing run: attempts `a, a+1, …, N`, with the
capped exponential backoff sleep after every attempt but the last. -/
def retryTrace (tok : Option String) (a N : Nat) : List Action :=
  if h : a < N then
    .attempt a tok :: .sleep (min (1000 * 2 ^ a) 10000) :: retryTrace tok (a + 1) N
  else [.attempt a tok]
  termination_by N - a

/-- The error category the claim requires for each terminal 4xx status. -/
def matchesCategory : Nat → TypedError → Prop
  | 400, .validationError _ _ => True
  | 402, .insufficientCreditsError _ => True
  | 404, .notFoundError _ => True
  | 429, .rateLimitError _ _ => True
  | _, _ => False

/-- Whether a run's outcome is a thrown `AuthenticationError`. -/
def isAuthenticationErrorResult : Except ReqError Body → Bool
  | .error (.typed (.authenticationError _)) => true
  | _ => false

/-! ## Helper lemmas -/

/-- Prefixing `"sha256="` always changes a string (length argument). -/
lemma sha256_prefixed_ne (h : String) : ("sha256=" ++ h) ≠ h := by
  intro e
  have hl := congrArg String.length e
  rw [String.length_append] at hl
  have h7 : "sha256=".length = 7 := rfl
  omega

/-- Classifying status 401 with `handleError` yields one of the two auth-category errors. -/
lemma handleError_401_class (b : Body) :
    (∃ m, handleError 401 b = .authenticationError m) ∨
    (∃ m h, handleError 401 b = .apiKeyRequiredError m h) := by
  unfold handleError
  by_cases hc : (jsOrStr b.error "unknown_error" == "invalid_api_key" ||
      jsOrStr b.error "unknown_error" == "api_key_required" ||
      hasSubstr (jsOrStr b.message ("HTTP " ++ toString 401)).toLower "api key") = true
  · right
    refine ⟨"API key required for sending messages",
      "Set SENDLY_API_KEY environment variable or create a key with:\n  sendly keys create --type test",
      ?_⟩
    simp [hc]
  · left
    refine ⟨jsOrStr b.message ("HTTP " ++ toString 401), ?_⟩
    simp [hc]

lemma retryTrace_of_lt (tok : Option String) {a N : Nat} (h : a < N) :
    retryTrace tok a N =
      .attempt a tok :: .sleep (min (1000 * 2 ^ a) 10000) :: retryTrace tok (a + 1) N := by
  rw [retryTrace]
  simp [h]

lemma retryTrace_of_ge (tok : Option String) {a N : Nat} (h : ¬a < N) :
    retryTrace tok a N = [.attempt a tok] := by
  rw [retryTrace]
  simp [h]

lemma countAttempts_retryTrace (tok : Option String) :
    ∀ d a N, N - a = d → a ≤ N → countAttempts (retryTrace tok a N) = N - a + 1 := by
  intro d
  induction d with
  | zero =>
      intro a N hd ha
      have : ¬a < N := by omega
      rw [retryTrace_of_ge tok this]
      simp [countAttempts]
      omega
  | succ d ih =>
      intro a N hd ha
      have h : a < N := by omega
      rw [retryTrace_of_lt tok h]
      have := ih (a + 1) N (by omega) (by omega)
      simp [countAttempts, List.countP_cons] at this ⊢
      omega

lemma sleepsOf_retryTrace (tok : Option String) :
    ∀ d a N, N - a = d → a ≤ N →
      sleepsOf (retryTrace tok a N) =
        (List.range' a (N - a)).map (fun k => min (1000 * 2 ^ k) 10000) := by
  intro d
  induction d with
  | zero =>
      intro a N hd ha
      have : ¬a < N := by omega
      rw [retryTrace_of_ge tok this, hd]
      simp [sleepsOf]
  | succ d ih =>
      intro a N hd ha
      have h : a < N := by omega
      rw [retryTrace_of_lt tok h, hd, List.range'_succ]
      have hrec := ih (a + 1) N (by omega) (by omega)
      rw [show N - (a + 1) = d by omega] at hrec
      simp [sleepsOf] at hrec ⊢
      exact hrec

/-- An all-retryable-failures run from attempt `a` produces the retry trace
`a..maxRetries` and propagates the last attempt's error. -/
lemma requestLoop_all_retryable (maxRetries : Nat) (env : Env)
    (fetches : Nat → FetchOutcome) (refreshes : Nat → Option RefreshData)
    (tok : String)
    (hf : ∀ k, k ≤ maxRetries → retryableOutcome (fetches k)) :
    ∀ d a s, maxRetries - a = d → a ≤ maxRetries → s.fetchIdx = a →
      getAuthToken env s.store = some tok →
      (requestLoop true maxRetries env fetches refreshes a false s).trace
          = retryTrace (some tok) a maxRetries ∧
      (requestLoop true maxRetries env fetches refreshes a false s).result
          = .error (errorOf (fetches maxRetries)) := by
  intro d
  induction d with
  | zero =>
      intro a s hd ha hfi htok
      have haN : a = maxRetries := by omega
      subst haN
      have hout := hf a le_rfl
      rcases hk : fetches a with ⟨status, headers, body⟩ | _
      · rw [hk] at hout
        unfold retryableOutcome at hout
        rcases hout with rfl | rfl | rfl | rfl <;>
          (rw [retryTrace_of_ge (some tok) (by omega)]
           constructor <;>
             simp [requestLoop, ensureAuth, htok, hfi, hk, handleError,
               isRetryableError, TypedError.statusCode, errorOf, jsOrStr])
      · rw [retryTrace_of_ge (some tok) (by omega)]
        constructor <;>
          simp [requestLoop, ensureAuth, htok, hfi, hk, errorOf]
  | succ d ih =>
      intro a s hd ha hfi htok
      have haN : a < maxRetries := by omega
      have hout := hf a (Nat.le_of_lt haN)
      rcases hk : fetches a with ⟨status, headers, body⟩ | _
      · rw [hk] at hout
        unfold retryableOutcome at hout
        obtain ⟨ihT, ihR⟩ := ih (a + 1)
          ⟨s.store, updateRateLimitInfo s.rateLimitInfo headers,
           a + 1, s.refreshIdx⟩
          (by omega) (by omega) (by simp) (by simpa using htok)
        rcases hout with rfl | rfl | rfl | rfl <;>
          (rw [retryTrace_of_lt (some tok) haN]
           constructor
           · rw [requestLoop]
             simp [ensureAuth, htok, hfi, hk, haN, handleError,
               isRetryableError, TypedError.statusCode, jsOrStr]
             exact ihT
           · rw [requestLoop]
             simp [ensureAuth, htok, hfi, hk, haN, handleError,
               isRetryableError, TypedError.statusCode, jsOrStr]
             exact ihR)
      · obtain ⟨ihT, ihR⟩ := ih (a + 1)
          ⟨s.store, s.rateLimitInfo, a + 1, s.refreshIdx⟩
          (by omega) (by omega) (by simp) (by simpa using htok)
        rw [retryTrace_of_lt (some tok) haN]
        constructor
        · rw [requestLoop]
          simp [ensureAuth, htok, hfi, hk, haN]
          exact ihT
        · rw [requestLoop]
          simp [ensureAuth, htok, hfi, hk, haN]
          exact ihR

/-! ## Claims -/

/-- C3: when every attempt fails with a transport error or a status in
{500, 502, 503, 504} and `maxRetries = N`, the engine performs exactly
`N + 1` attempts, sleeps `min(1000·2^k, 10000)` ms after each failed
attempt `k < N`, and propagates the last attempt's error. -/
theorem request_5xx_retry_schedule (maxRetries : Nat) (env : Env)
    (fetches : Nat → FetchOutcome) (refreshes : Nat → Option RefreshData)
    (st : Store) (tok : String)
    (htok : getAuthToken env st = some tok)
    (hf : ∀ k, k ≤ maxRetries → retryableOutcome (fetches k)) :
    (request true maxRetries env fetches refreshes st).trace
        = retryTrace (some tok) 0 maxRetries ∧
    countAttempts (request true maxRetries env fetches refreshes st).trace
        = maxRetries + 1 ∧
    sleepsOf (request true maxRetries env fetches refreshes st).trace
        = (List.range maxRetries).map (fun k => min (1000 * 2 ^ k) 10000) ∧
    (request true maxRetries env fetches refreshes st).result
        = .error (errorOf (fetches maxRetries)) := by
  obtain ⟨hT, hR⟩ := requestLoop_all_retryable maxRetries env fetches refreshes
    tok hf maxRetries 0 (initState st) (by omega) (by omega) rfl htok
  refine ⟨hT, ?_, ?_, hR⟩
  · rw [show request true maxRetries env fetches refreshes st =
        requestLoop true maxRetries env fetches refreshes 0 false (initState st)
      from rfl, hT, countAttempts_retryTrace (some tok) maxRetries 0 maxRetries
      (by omega) (by omega)]
    omega
  · rw [show request true maxRetries env fetches refreshes st =
        requestLoop true maxRetries env fetches refreshes 0 false (initState st)
      from rfl, hT, sleepsOf_retryTrace (some tok) maxRetries 0 maxRetries
      (by omega) (by omega), List.range_eq_range']
    simp

theorem request_5xx_retry_schedule_witness :
    (request true 2 ⟨none, 0⟩
        (fun k => if k = 0 then .netError
                  else .response 503 {} { message := some "unavailable" })
        (fun _ => none) ⟨some "sk_test_v1_k", none, none, none⟩).trace
      = retryTrace (some "sk_test_v1_k") 0 2 ∧
    countAttempts (request true 2 ⟨none, 0⟩
        (fun k => if k = 0 then .netError
                  else .response 503 {} { message := some "unavailable" })
        (fun _ => none) ⟨some "sk_test_v1_k", none, none, none⟩).trace = 3 ∧
    sleepsOf (request true 2 ⟨none, 0⟩
        (fun k => if k = 0 then .netError
                  else .response 503 {} { message := some "unavailable" })
        (fun _ => none) ⟨some "sk_test_v1_k", none, none, none⟩).trace
      = [1000, 2000] ∧
    (request true 2 ⟨none, 0⟩
        (fun k => if k = 0 then .netError
                  else .response 503 {} { message := some "unavailable" })
        (fun _ => none) ⟨some "sk_test_v1_k", none, none, none⟩).result
      = .error (.typed (handleError 503 { message := some "unavailable" })) := by
  have T := request_5xx_retry_schedule 2 ⟨none, 0⟩
    (fun k => if k = 0 then .netError
              else .response 503 {} { message := some "unavailable" })
    (fun _ => none) ⟨some "sk_test_v1_k", none, none, none⟩ "sk_test_v1_k"
    (by decide)
    (by intro k hk
        interval_cases k <;> simp [retryableOutcome])
  refine ⟨T.1, T.2.1, ?_, ?_⟩
  · rw [T.2.2.1]
    decide
  · rw [T.2.2.2]
    simp [errorOf]

/-- C1: an inbound relay event whose signature fails verification is
reported to the operator as a verification failure and no forward POST is
issued for it; a forward POST appears in the trace only when verification
succeeded. -/
theorem relay_no_forward_on_bad_signature (secret : Option String)
    (url : String) (ev : WebhookEvent) (ts : Nat) (sig : String)
    (outcome : ForwardOutcome) :
    (verifySignature secret ev ts sig = false →
      RelayAction.verifyFailed ∈ handleEvent secret url ev ts sig outcome ∧
      countForwardPosts (handleEvent secret url ev ts sig outcome) = 0) ∧
    (0 < countForwardPosts (handleEvent secret url ev ts sig outcome) →
      verifySignature secret ev ts sig = true) := by
  unfold handleEvent
  cases h : verifySignature secret ev ts sig <;>
    simp [h, countForwardPosts, forwardEvent]

theorem relay_no_forward_on_bad_signature_witness :
    verifySignature none ⟨"evt_1", "message.sent", 0, none, none, "x"⟩ 5 "sig" = false ∧
    RelayAction.verifyFailed ∈
      handleEvent none "http://localhost:3000/webhook"
        ⟨"evt_1", "message.sent", 0, none, none, "x"⟩ 5 "sig" (.response 200) ∧
    countForwardPosts
      (handleEvent none "http://localhost:3000/webhook"
        ⟨"evt_1", "message.sent", 0, none, none, "x"⟩ 5 "sig" (.response 200)) = 0 :=
  ⟨by decide,
   ((relay_no_forward_on_bad_signature none "http://localhost:3000/webhook"
      ⟨"evt_1", "message.sent", 0, none, none, "x"⟩ 5 "sig" (.response 200)).1
      (by decide)).1,
   ((relay_no_forward_on_bad_signature none "http://localhost:3000/webhook"
      ⟨"evt_1", "message.sent", 0, none, none, "x"⟩ 5 "sig" (.response 200)).1
      (by decide)).2⟩

/-- C5 counterexample: the code accepts exactly the `"sha256="`-prefixed
hex HMAC, which differs from the bare hex digest the claim requires — so a
signature the code declares authentic is not equal to the hex-encoded HMAC. -/
theorem verifySignature_prefixed_counterexample :
    verifySignature (some "whsec_test")
        ⟨"evt_1", "message.delivered", 1700000000, none, none, "\x7b\x7d"⟩
        1700000000
        ("sha256=" ++ hmacSha256Hex "whsec_test"
          (toString (1700000000 : Nat) ++ "." ++ "\x7b\x7d")) = true ∧
    ("sha256=" ++ hmacSha256Hex "whsec_test"
        (toString (1700000000 : Nat) ++ "." ++ "\x7b\x7d")) ≠
      hmacSha256Hex "whsec_test" (toString (1700000000 : Nat) ++ "." ++ "\x7b\x7d") :=
  ⟨by simp [verifySignature, jsTruthyStr], sha256_prefixed_ne _⟩

/-- C5 (amended): with a (nonempty) session secret held, an inbound event is
declared authentic iff its signature equals `"sha256="` followed by the
hex-encoded HMAC-SHA256 of `"<timestamp>.<JSON(event)>"` keyed by the
secret, compared by ordinary string equality; with no secret held nothing
verifies. -/
theorem verifySignature_spec (secret : String) (hs : secret ≠ "")
    (ev : WebhookEvent) (ts : Nat) (sig : String) :
    (verifySignature (some secret) ev ts sig = true ↔
      sig = "sha256=" ++ hmacSha256Hex secret (toString ts ++ "." ++ ev.serialized)) ∧
    verifySignature none ev ts sig = false := by
  unfold verifySignature
  simp [jsTruthyStr, hs]

theorem verifySignature_spec_witness :
    (verifySignature (some "s") ⟨"i", "t", 0, none, none, "p"⟩ 7 "x" = true ↔
      "x" = "sha256=" ++ hmacSha256Hex "s" (toString (7 : Nat) ++ "." ++ "p")) ∧
    verifySignature none ⟨"i", "t", 0, none, none, "p"⟩ 7 "x" = false :=
  verifySignature_spec "s" (by decide) ⟨"i", "t", 0, none, none, "p"⟩ 7 "x"

/-- C6 counterexample: at `x = ""` the classifier's JS `||` default kicks in
and the resulting message is `"HTTP 402"`, not `x`. -/
theorem classify402_empty_message_counterexample :
    handleError 402 { message := some "" } =
      .insufficientCreditsError "HTTP 402" ∧ ("HTTP 402" : String) ≠ "" := by
  constructor
  · simp [handleError, jsOrStr, jsTruthyStr]
    decide
  · decide

/-- C6 (amended): for every nonempty string `x`, classifying a 402 response
with body `{message: x}` yields `InsufficientCreditsError` with message `x`
(the empty string falls back to `"HTTP 402"` through JS `||`). -/
theorem classify402_message_roundtrip (x : String) (hx : x ≠ "") :
    handleError 402 { message := some x } = .insufficientCreditsError x := by
  simp [handleError, jsOrStr, jsTruthyStr, hx]

theorem classify402_message_roundtrip_witness :
    handleError 402 { message := some "x" } = .insufficientCreditsError "x" :=
  classify402_message_roundtrip "x" (by decide)

/-- C8: with both an API key and an access token stored, `getAuthToken`
returns the API key, never the access token; an environment-variable API key
takes precedence over both stored values. -/
theorem getAuthToken_apiKey_precedence (env : Env) (st : Store) :
    (jsTruthyStr env.sendlyApiKey = false → jsTruthyStr st.apiKey = true →
      getAuthToken env st = st.apiKey) ∧
    (jsTruthyStr env.sendlyApiKey = true →
      getAuthToken env st = env.sendlyApiKey) := by
  unfold getAuthToken
  constructor
  · intro h1 h2; simp [h1, h2]
  · intro h1; simp [h1]

/-- C4: a response with status 400, 402, 404 or 429 terminates the call
after exactly one attempt (no backoff sleep, whatever `maxRetries` is),
raising the matching TypedError category. -/
theorem request_4xx_single_attempt (ra : Bool) (status maxRetries : Nat)
    (env : Env) (fetches : Nat → FetchOutcome)
    (refreshes : Nat → Option RefreshData) (st : Store) (tok : String)
    (headers : RateHeaders) (b : Body)
    (hstat : status = 400 ∨ status = 402 ∨ status = 404 ∨ status = 429)
    (htok : ra = true → getAuthToken env st = some tok)
    (hf : fetches 0 = .response status headers b) :
    (request ra maxRetries env fetches refreshes st).trace
        = [.attempt 0 (if ra then some tok else none)] ∧
    (request ra maxRetries env fetches refreshes st).result
        = .error (.typed (handleError status b)) ∧
    matchesCategory status (handleError status b) := by
  rcases hstat with rfl | rfl | rfl | rfl <;> cases ra <;>
    simp_all [request, requestLoop, initState, ensureAuth, handleError,
      isRetryableError, TypedError.statusCode, jsOrStr, matchesCategory]

theorem request_4xx_single_attempt_witness :
    (request true 5 ⟨none, 0⟩
        (fun _ => .response 402 {} { message := some "no credits" })
        (fun _ => none) ⟨some "sk_test_v1_k", none, none, none⟩).trace
      = [.attempt 0 (some "sk_test_v1_k")] ∧
    (request true 5 ⟨none, 0⟩
        (fun _ => .response 402 {} { message := some "no credits" })
        (fun _ => none) ⟨some "sk_test_v1_k", none, none, none⟩).result
      = .error (.typed (handleError 402 { message := some "no credits" })) ∧
    matchesCategory 402 (handleError 402 { message := some "no credits" }) :=
  request_4xx_single_attempt true 402 5 ⟨none, 0⟩
    (fun _ => .response 402 {} { message := some "no credits" })
    (fun _ => none) ⟨some "sk_test_v1_k", none, none, none⟩ "sk_test_v1_k"
    {} { message := some "no credits" }
    (Or.inr (Or.inl rfl)) (fun _ => by decide) rfl

/-- C7 counterexample: a failed (HTTP 500) response carrying all three
`X-RateLimit-*` headers still overwrites the process-wide slot, contradicting
"overwritten exactly on successful responses ... left unchanged by every
other response". -/
theorem rateLimit_updated_on_failure_counterexample :
    (request false 0 ⟨none, 0⟩
        (fun _ => .response 500 ⟨some "10", some "5", some "99"⟩ {})
        (fun _ => none) ⟨none, none, none, none⟩).state.rateLimitInfo
      = some ⟨some 10, some 5, some 99⟩ ∧
    (request false 0 ⟨none, 0⟩
        (fun _ => .response 500 ⟨some "10", some "5", some "99"⟩ {})
        (fun _ => none) ⟨none, none, none, none⟩).result
      = .error (.typed (.apiError "unknown_error" "HTTP 500" 500 false
          (some "This is a server error. Try again later or check https://status.sendly.live"))) := by
  constructor <;>
    simp [request, requestLoop, initState, updateRateLimitInfo, jsTruthyStr,
      handleError, isRetryableError, TypedError.statusCode, jsOrStr] <;>
    decide

/-- C7 (amended): the slot starts absent and is overwritten by every HTTP
response — successful or not — whose three rate-limit headers are present
and nonempty, storing their `parseInt` values (without validating that they
parse as integers: a failed parse stores `NaN`); it is left unchanged when
any header is missing/empty and by transport errors. -/
theorem rateLimit_update_spec (cur : Option RateLimitInfo) (h : RateHeaders)
    (env : Env) (fetches : Nat → FetchOutcome)
    (refreshes : Nat → Option RefreshData) (st : Store) :
    ((jsTruthyStr h.limit && jsTruthyStr h.remaining && jsTruthyStr h.reset) = true →
      updateRateLimitInfo cur h = some ⟨jsParseInt (h.limit.getD ""),
        jsParseInt (h.remaining.getD ""), jsParseInt (h.reset.getD "")⟩) ∧
    ((jsTruthyStr h.limit && jsTruthyStr h.remaining && jsTruthyStr h.reset) = false →
      updateRateLimitInfo cur h = cur) ∧
    (∀ status b, fetches 0 = .response status h b →
      (request false 0 env fetches refreshes st).state.rateLimitInfo =
        updateRateLimitInfo none h) ∧
    (fetches 0 = .netError →
      (request false 0 env fetches refreshes st).state.rateLimitInfo = none) := by
  refine ⟨?_, ?_, ?_, ?_⟩
  · intro hc
    simp [updateRateLimitInfo, hc]
  · intro hc
    simp [updateRateLimitInfo, hc]
  · intro status b hb
    by_cases h2 : 200 ≤ status ∧ status < 300 <;>
      simp [request, requestLoop, initState, hb, h2]
  · intro hb
    simp [request, requestLoop, initState, hb]

theorem rateLimit_update_spec_witness :
    updateRateLimitInfo none ⟨some "10", some "xyz", some "99"⟩
      = some ⟨some 10, none, some 99⟩ ∧
    updateRateLimitInfo (some ⟨some 1, some 2, some 3⟩) ⟨some "10", none, some "99"⟩
      = some ⟨some 1, some 2, some 3⟩ ∧
    (request false 0 ⟨none, 0⟩
        (fun _ => .response 204 ⟨some "10", some "xyz", some "99"⟩ {})
        (fun _ => none) ⟨none, none, none, none⟩).state.rateLimitInfo
      = updateRateLimitInfo none ⟨some "10", some "xyz", some "99"⟩ ∧
    (request false 0 ⟨none, 0⟩ (fun _ => .netError)
        (fun _ => none) ⟨none, none, none, none⟩).state.rateLimitInfo = none := by
  have T1 := rateLimit_update_spec none ⟨some "10", some "xyz", some "99"⟩
    ⟨none, 0⟩ (fun _ => .response 204 ⟨some "10", some "xyz", some "99"⟩ {})
    (fun _ => none) ⟨none, none, none, none⟩
  have T2 := rateLimit_update_spec (some ⟨some 1, some 2, some 3⟩)
    ⟨some "10", none, some "99"⟩ ⟨none, 0⟩ (fun _ => .netError)
    (fun _ => none) ⟨none, none, none, none⟩
  refine ⟨?_, T2.2.1 (by decide), T1.2.2.1 204 {} rfl, T2.2.2.2 rfl⟩
  rw [T1.1 (by decide)]
  decide

/-- C2 counterexample: a first-attempt 401 whose body flags an API-key
failure, followed by a failed refresh, raises `ApiKeyRequiredError` — not an
`AuthenticationError` as the claim states. -/
theorem request_401_apiKeyRequired_counterexample :
    (request true 3 ⟨none, 1000⟩
        (fun _ => .response 401 {} { error := some "invalid_api_key" })
        (fun _ => none) ⟨some "sk_test_v1_k", some "cli_tok", none, none⟩).result
      = .error (.typed (.apiKeyRequiredError "API key required for sending messages"
          "Set SENDLY_API_KEY environment variable or create a key with:\n  sendly keys create --type test")) ∧
    isAuthenticationErrorResult
      (request true 3 ⟨none, 1000⟩
        (fun _ => .response 401 {} { error := some "invalid_api_key" })
        (fun _ => none) ⟨some "sk_test_v1_k", some "cli_tok", none, none⟩).result
      = false := by
  constructor <;>
    simp [request, requestLoop, ensureAuth, getAuthToken, jsTruthyStr,
      getStoredAccessToken, handleError, jsOrStr, hasSubstr,
      updateRateLimitInfo, initState, isAuthenticationErrorResult]

/-- C2 (amended): a first-attempt 401 under `requireAuth` triggers exactly
one `didRefresh`-guarded token refresh (one refresh HTTP call, given a
stored access token); if the refresh fails, the 401 is classified and
raised — an `AuthenticationError`, or an `ApiKeyRequiredError` when the
error body indicates an API-key failure; if the refresh succeeds, the
engine re-issues the same attempt (index 0 again, no backoff, whatever
`maxRetries`) with the freshly resolved bearer token and returns that
attempt's successful result. -/
theorem request_401_refresh_behavior (maxRetries : Nat) (env : Env)
    (fetches : Nat → FetchOutcome) (refreshes : Nat → Option RefreshData)
    (st : Store) (tok a : String) (h1 : RateHeaders) (b : Body)
    (htok : getAuthToken env st = some tok)
    (hstored : st.accessToken = some a) (ha : a ≠ "")
    (hf0 : fetches 0 = .response 401 h1 b) :
    (refreshes 0 = none →
      (request true maxRetries env fetches refreshes st).trace
          = [.attempt 0 (some tok), .refreshCall] ∧
      (request true maxRetries env fetches refreshes st).result
          = .error (.typed (handleError 401 b)) ∧
      ((∃ m, handleError 401 b = .authenticationError m) ∨
       (∃ m h, handleError 401 b = .apiKeyRequiredError m h))) ∧
    (∀ d tok2 h2 b2, refreshes 0 = some d →
      getAuthToken env (setAuthTokens env st d) = some tok2 →
      fetches 1 = .response 200 h2 b2 →
      (request true maxRetries env fetches refreshes st).trace
          = [.attempt 0 (some tok), .refreshCall, .attempt 0 (some tok2)] ∧
      (request true maxRetries env fetches refreshes st).result = .ok b2 ∧
      countRefreshCalls (request true maxRetries env fetches refreshes st).trace = 1 ∧
      sleepsOf (request true maxRetries env fetches refreshes st).trace = []) := by
  constructor
  · intro hr0
    refine ⟨?_, ?_, handleError_401_class b⟩ <;>
      simp [request, requestLoop, initState, ensureAuth, htok, hf0, hr0,
        getStoredAccessToken, hstored, jsTruthyStr, ha]
  · intro d tok2 h2 b2 hrd htok2 hf1
    refine ⟨?_, ?_, ?_, ?_⟩ <;>
      simp [request, requestLoop, initState, ensureAuth, htok, hf0, hrd, htok2,
        hf1, getStoredAccessToken, hstored, jsTruthyStr, ha, countRefreshCalls,
        sleepsOf]

theorem request_401_refresh_behavior_witness :
    ((request true 3 ⟨none, 1000⟩
        (fun _ => .response 401 {} { message := some "expired" })
        (fun _ => none) ⟨none, some "cli_old", none, some 5000⟩).trace
      = [.attempt 0 (some "cli_old"), .refreshCall] ∧
     (request true 3 ⟨none, 1000⟩
        (fun _ => .response 401 {} { message := some "expired" })
        (fun _ => none) ⟨none, some "cli_old", none, some 5000⟩).result
      = .error (.typed (handleError 401 { message := some "expired" })) ∧
     ((∃ m, handleError 401 { message := some "expired" } = .authenticationError m) ∨
      (∃ m h, handleError 401 { message := some "expired" } = .apiKeyRequiredError m h))) ∧
    ((request true 3 ⟨none, 1000⟩
        (fun k => if k = 0 then .response 401 {} { message := some "expired" }
                  else .response 200 {} { data := 7 })
        (fun _ => some ⟨"cli_new", "r", 3600⟩)
        ⟨none, some "cli_old", none, some 5000⟩).trace
      = [.attempt 0 (some "cli_old"), .refreshCall, .attempt 0 (some "cli_new")] ∧
     (request true 3 ⟨none, 1000⟩
        (fun k => if k = 0 then .response 401 {} { message := some "expired" }
                  else .response 200 {} { data := 7 })
        (fun _ => some ⟨"cli_new", "r", 3600⟩)
        ⟨none, some "cli_old", none, some 5000⟩).result = .ok { data := 7 }) := by
  have T1 := request_401_refresh_behavior 3 ⟨none, 1000⟩
    (fun _ => .response 401 {} { message := some "expired" }) (fun _ => none)
    ⟨none, some "cli_old", none, some 5000⟩ "cli_old" "cli_old" {}
    { message := some "expired" } (by decide) rfl (by decide) rfl
  have T2 := request_401_refresh_behavior 3 ⟨none, 1000⟩
    (fun k => if k = 0 then .response 401 {} { message := some "expired" }
              else .response 200 {} { data := 7 })
    (fun _ => some ⟨"cli_new", "r", 3600⟩)
    ⟨none, some "cli_old", none, some 5000⟩ "cli_old" "cli_old" {}
    { message := some "expired" } (by decide) rfl (by decide) rfl
  have T2' := T2.2 ⟨"cli_new", "r", 3600⟩ "cli_new" {} { data := 7 }
    rfl (by decide) rfl
  exact ⟨T1.1 rfl, T2'.1, T2'.2.1⟩

/-- C9: a verified event's forward is one single POST (never retried); a
non-2xx forward response reports `Forward failed` with the status and a
transport error reports the failure message; and whatever one event's
forward outcome, the session processes the subsequent messages unchanged. -/
theorem forward_failure_session_continues (secret : Option String)
    (url : String) (ev : WebhookEvent) (ts : Nat) (sig : String)
    (rest : List InboundMsg) :
    (∀ status, ¬(200 ≤ status ∧ status < 300) →
      countForwardPosts (forwardEvent url ev ts sig (.response status)) = 1 ∧
      RelayAction.forwardFailed status ∈
        forwardEvent url ev ts sig (.response status)) ∧
    (∀ m, countForwardPosts (forwardEvent url ev ts sig (.netError m)) = 1 ∧
      RelayAction.forwardError m ∈ forwardEvent url ev ts sig (.netError m)) ∧
    (verifySignature secret ev ts sig = true → ∀ fwd,
      handleEvent secret url ev ts sig fwd =
        .display ev.created ev.type ev.dataId ev.dataTo ::
          forwardEvent url ev ts sig fwd) ∧
    (∀ fwd, processMessages secret url (.webhookEvent ev ts sig fwd :: rest) =
      handleEvent secret url ev ts sig fwd ++ processMessages secret url rest) := by
  refine ⟨?_, ?_, ?_, ?_⟩
  · intro status hst
    simp [forwardEvent, countForwardPosts, hst]
  · intro m
    simp [forwardEvent, countForwardPosts]
  · intro hv fwd
    simp [handleEvent, hv]
  · intro fwd
    simp [processMessages, processMessage]

theorem forward_failure_session_continues_witness :
    countForwardPosts (forwardEvent "http://localhost:3000/webhook"
      ⟨"evt_1", "message.sent", 0, none, none, "p"⟩ 5
      ("sha256=" ++ hmacSha256Hex "s" (toString (5 : Nat) ++ "." ++ "p"))
      (.response 500)) = 1 ∧
    RelayAction.forwardFailed 500 ∈ forwardEvent "http://localhost:3000/webhook"
      ⟨"evt_1", "message.sent", 0, none, none, "p"⟩ 5
      ("sha256=" ++ hmacSha256Hex "s" (toString (5 : Nat) ++ "." ++ "p"))
      (.response 500) ∧
    handleEvent (some "s") "http://localhost:3000/webhook"
        ⟨"evt_1", "message.sent", 0, none, none, "p"⟩ 5
        ("sha256=" ++ hmacSha256Hex "s" (toString (5 : Nat) ++ "." ++ "p"))
        (.response 500) =
      .display 0 "message.sent" none none ::
        forwardEvent "http://localhost:3000/webhook"
          ⟨"evt_1", "message.sent", 0, none, none, "p"⟩ 5
          ("sha256=" ++ hmacSha256Hex "s" (toString (5 : Nat) ++ "." ++ "p"))
          (.response 500) ∧
    processMessages (some "s") "http://localhost:3000/webhook"
        [.webhookEvent ⟨"evt_1", "message.sent", 0, none, none, "p"⟩ 5
          ("sha256=" ++ hmacSha256Hex "s" (toString (5 : Nat) ++ "." ++ "p"))
          (.response 500), .connected] =
      handleEvent (some "s") "http://localhost:3000/webhook"
        ⟨"evt_1", "message.sent", 0, none, none, "p"⟩ 5
        ("sha256=" ++ hmacSha256Hex "s" (toString (5 : Nat) ++ "." ++ "p"))
        (.response 500) ++
      processMessages (some "s") "http://localhost:3000/webhook" [.connected] := by
  have T := forward_failure_session_continues (some "s")
    "http://localhost:3000/webhook" ⟨"evt_1", "message.sent", 0, none, none, "p"⟩ 5
    ("sha256=" ++ hmacSha256Hex "s" (toString (5 : Nat) ++ "." ++ "p")) [.connected]
  exact ⟨(T.1 500 (by omega)).1, (T.1 500 (by omega)).2,
    T.2.2.1 (by simp [verifySignature, jsTruthyStr]) (.response 500),
    T.2.2.2 (.response 500)⟩

/-- C10: with no API key available, `getAuthToken` yields the stored access
token exactly when an expiry is stored (nonzero) and the clock is strictly
before it; when it yields nothing, `ensureAuth` never uses the stored token
directly: it throws `AuthenticationError` unless the stored token is
`cli_`-prefixed, in which case it issues a refresh. -/
theorem accessToken_expiry_gate (env : Env) (st : Store)
    (henv : jsTruthyStr env.sendlyApiKey = false)
    (hkey : jsTruthyStr st.apiKey = false) :
    (∀ t, getAuthToken env st = some t ↔
      (st.accessToken = some t ∧ jsTruthyStr st.accessToken = true ∧
        ∃ e, st.tokenExpiresAt = some e ∧ e ≠ 0 ∧ env.now < e)) ∧
    (getAuthToken env st = none → ∀ oracle : Option RefreshData,
      (∀ stored, getStoredAccessToken st = some stored →
        strStartsWith stored "cli_" = false →
        (ensureAuth env st oracle).result =
          .error (.authenticationError "Authentication failed")) ∧
      (getStoredAccessToken st = none →
        (ensureAuth env st oracle).result =
          .error (.authenticationError "Authentication failed")) ∧
      (∀ stored, getStoredAccessToken st = some stored →
        strStartsWith stored "cli_" = true →
        (ensureAuth env st oracle).refreshed = true)) := by
  constructor
  · intro t
    simp only [getAuthToken, henv, hkey, Bool.false_eq_true, if_false]
    split_ifs with hcond
    · rw [Bool.and_eq_true, Bool.and_eq_true] at hcond
      obtain ⟨⟨h1, h2⟩, h3⟩ := hcond
      cases hte : st.tokenExpiresAt with
      | none => rw [hte] at h2; exact absurd h2 (by simp [jsTruthyInt])
      | some e =>
          have hz : e ≠ 0 := by
            rw [hte] at h2
            simpa [jsTruthyInt] using h2
          have hlt : env.now < e := by
            rw [hte] at h3
            simpa using h3
          constructor
          · intro h
            exact ⟨h, h1, e, rfl, hz, hlt⟩
          · rintro ⟨h, -⟩
            exact h
    · constructor
      · intro h
        simp at h
      · rintro ⟨hat, ht, e, hte, hz, hlt⟩
        exfalso
        apply hcond
        rw [hte, ht]
        simp [jsTruthyInt, hz, hlt]
  · intro h0 oracle
    refine ⟨?_, ?_, ?_⟩
    · intro stored hs hcli
      simp [ensureAuth, h0, hs, hcli]
    · intro hs
      simp [ensureAuth, h0, hs]
    · intro stored hs hcli
      cases oracle with
      | none => simp [ensureAuth, h0, hs, hcli, refreshTokens]
      | some d =>
          simp only [ensureAuth, h0, hs, hcli, refreshTokens, if_true]
          cases getAuthToken env (setAuthTokens env st d) <;> simp

theorem accessToken_expiry_gate_witness :
    (getAuthToken ⟨none, 1000⟩ ⟨none, some "cli_t", none, some 500⟩ = some "cli_t" ↔
      ((⟨none, some "cli_t", none, some 500⟩ : Store).accessToken = some "cli_t" ∧
        jsTruthyStr (⟨none, some "cli_t", none, some 500⟩ : Store).accessToken = true ∧
        ∃ e, (⟨none, some "cli_t", none, some 500⟩ : Store).tokenExpiresAt = some e ∧
          e ≠ 0 ∧ (1000 : Int) < e)) ∧
    (ensureAuth ⟨none, 1000⟩ ⟨none, some "cli_t", none, some 500⟩ none).refreshed
      = true := by
  have T := accessToken_expiry_gate ⟨none, 1000⟩ ⟨none, some "cli_t", none, some 500⟩
    (by decide) (by decide)
  exact ⟨T.1 "cli_t",
    ((T.2 (by decide) none).2.2 "cli_t" (by decide) (by decide))⟩

theorem getAuthToken_apiKey_precedence_witness :
    getAuthToken ⟨none, 0⟩ ⟨some "sk_live_v1_a", some "tok", none, some 999⟩
        = some "sk_live_v1_a" ∧
    getAuthToken ⟨some "sk_test_v1_e", 0⟩
        ⟨some "sk_live_v1_a", some "tok", none, some 999⟩ = some "sk_test_v1_e" :=
  ⟨(getAuthToken_apiKey_precedence ⟨none, 0⟩
      ⟨some "sk_live_v1_a", some "tok", none, some 999⟩).1 (by decide) (by decide),
   (getAuthToken_apiKey_precedence ⟨some "sk_test_v1_e", 0⟩
      ⟨some "sk_live_v1_a", some "tok", none, some 999⟩).2 (by decide)⟩

end Sendly
